import Mathlib

/-!
Verification development for the `superdough` audio-voice core
(`src/src-tauri/src/superdough.rs`).

The Rust floating-point values (`f32`/`f64`) are modelled over `ℚ` for the
scheduling and branching logic, whose constants are all exact decimal
fractions, and over `ℝ` for the filter-envelope frequency math, which uses
real exponentials (`2f32.powf`).  Automation calls
(`set_value_at_time`, `linear_ramp_to_value_at_time`,
`exponential_ramp_to_value_at_time`) are modelled as explicit ordered lists
of `(time, value, curve)` breakpoints.
-/

namespace Superdough

/-- Curve kind of one scheduled automation breakpoint:
`set_value_at_time`, `linear_ramp_to_value_at_time`,
or `exponential_ramp_to_value_at_time`. -/
inductive Curve where
  | set
  | linear
  | exponential
deriving DecidableEq, Repr

/-- One scheduled automation target: `(time, value, curveKind)`. -/
abbrev Breakpoint := ℚ × ℚ × Curve

/-- `struct Loop` from superdough.rs: `is_loop: u8`, `loop_start: f64`,
`loop_end: f64`. -/
structure Loop where
  is_loop : ℕ
  loop_start : ℚ
  loop_end : ℚ
deriving DecidableEq, Repr

/-- `struct LPF` from superdough.rs. -/
structure LPF where
  frequency : ℚ
  resonance : ℚ
deriving DecidableEq, Repr

/-- `struct HPF` from superdough.rs. -/
structure HPF where
  frequency : ℚ
  resonance : ℚ
deriving DecidableEq, Repr

/-- `struct BPF` from superdough.rs. -/
structure BPF where
  frequency : ℚ
  resonance : ℚ
deriving DecidableEq, Repr

/-- `struct ADSR` from superdough.rs: all four fields optional. -/
structure ADSR where
  attack : Option ℚ
  decay : Option ℚ
  sustain : Option ℚ
  release : Option ℚ
deriving DecidableEq, Repr

/-- `struct FilterADSR` from superdough.rs: envelope with sweep depth `env`. -/
structure FilterADSR where
  attack : Option ℚ
  decay : Option ℚ
  sustain : Option ℚ
  release : Option ℚ
  env : Option ℚ
deriving DecidableEq, Repr

/-- The fields of `WebAudioMessage` (declared in webaudiobridge.rs) that
superdough.rs reads: `duration`, `begin`, `speed`, `looper`, `adsr`,
`lpf`/`hpf`/`bpf`, and `lpenv`/`hpenv`/`bpenv`. -/
structure WebAudioMessage where
  duration : ℚ
  begin : ℚ
  speed : ℚ
  looper : Loop
  adsr : ADSR
  lpf : LPF
  hpf : HPF
  bpf : BPF
  lpenv : FilterADSR
  hpenv : FilterADSR
  bpenv : FilterADSR
deriving DecidableEq, Repr

/-- `Synth::set_adsr` (superdough.rs lines 93-104): defaults
attack 0.001, decay 0.05, sustain 0.6, release 0.01; schedules
set 0, linear ramp to velocity, exponential ramp to
`(sustain + 0.0001) * velocity`, exponential ramp to `0.000001`. -/
def Synth.set_adsr (t : ℚ) (adsr : ADSR) (velocity : ℚ) (duration : ℚ) :
    List Breakpoint :=
  let attack := adsr.attack.getD 0.001
  let decay := adsr.decay.getD 0.05
  let sustain := adsr.sustain.getD 0.6
  let release := adsr.release.getD 0.01
  [(t, 0, Curve.set),
   (t + attack, velocity, Curve.linear),
   (t + attack + decay, (sustain + 0.0001) * velocity, Curve.exponential),
   (t + duration + release, 0.000001, Curve.exponential)]

/-- `Sampler::set_adsr` (superdough.rs lines 160-171): defaults
attack 0.001, decay 0.001, sustain 1.0, release 0.01; schedules
set 0, linear ramp to velocity, linear ramp to
`(sustain + 0.00001) * velocity`, set (hold) of the same value at
`t + duration`, linear ramp to 0. -/
def Sampler.set_adsr (t : ℚ) (adsr : ADSR) (velocity : ℚ) (duration : ℚ) :
    List Breakpoint :=
  let attack := adsr.attack.getD 0.001
  let decay := adsr.decay.getD 0.001
  let sustain := adsr.sustain.getD 1.0
  let release := adsr.release.getD 0.01
  [(t, 0, Curve.set),
   (t + attack, velocity, Curve.linear),
   (t + attack + decay, (sustain + 0.00001) * velocity, Curve.linear),
   (t + duration, (sustain + 0.00001) * velocity, Curve.set),
   (t + duration + release, 0, Curve.linear)]

/-- An `ADSR` value with every field absent. -/
def ADSR.allNone : ADSR := ⟨none, none, none, none⟩

/-- A `FilterADSR` value with every field absent. -/
def FilterADSR.allNone : FilterADSR := ⟨none, none, none, none, none⟩

/-- A baseline message: unit duration, forward speed, loop off, every
filter frequency zero, every envelope field absent. -/
def testMessage : WebAudioMessage :=
  { duration := 1
    begin := 0
    speed := 1
    looper := ⟨0, 0, 0⟩
    adsr := ADSR.allNone
    lpf := ⟨0, 0⟩
    hpf := ⟨0, 0⟩
    bpf := ⟨0, 0⟩
    lpenv := FilterADSR.allNone
    hpenv := FilterADSR.allNone
    bpenv := FilterADSR.allNone }

/-- The spec's filter-priority example: `bpf.frequency = 200` and
`lpf.frequency = 1000` set simultaneously. -/
def msgBpLp : WebAudioMessage :=
  { testMessage with bpf := ⟨200, 1⟩, lpf := ⟨1000, 2⟩ }

/-- `BiquadFilterType` from the `web_audio_api` crate (the variants
superdough.rs matches on, plus the remaining ones covered by its `_`
arms). -/
inductive BiquadFilterType where
  | lowpass
  | highpass
  | bandpass
  | notch
  | allpass
  | peaking
  | lowshelf
  | highshelf
deriving DecidableEq, Repr

/-- A configured biquad filter node: its type, centre/cutoff frequency and
resonance (Q), as set by `set_type` / `frequency().set_value` /
`q().set_value` in `set_filters`. -/
structure BiquadFilter where
  kind : BiquadFilterType
  frequency : ℚ
  q : ℚ
deriving DecidableEq, Repr

/-- References to the audio nodes a voice wires together. -/
inductive AudioNodeRef where
  | oscillator
  | sample
  | filterNode (idx : ℕ)
  | envelope
deriving DecidableEq, Repr

/-- A directed `connect` edge between two audio nodes. -/
abbrev Connection := AudioNodeRef × AudioNodeRef

/-- The filter-selection chain shared verbatim by `Synth::set_filters`
(lines 112-132) and `Sampler::set_filters` (lines 198-218): test
`bpf.frequency > 0.0`, else `lpf.frequency > 0.0`, else
`hpf.frequency > 0.0`; the first match pushes one configured filter. -/
def buildFilters (message : WebAudioMessage) : List BiquadFilter :=
  if message.bpf.frequency > 0 then
    [{ kind := BiquadFilterType.bandpass,
       frequency := message.bpf.frequency, q := message.bpf.resonance }]
  else if message.lpf.frequency > 0 then
    [{ kind := BiquadFilterType.lowpass,
       frequency := message.lpf.frequency, q := message.lpf.resonance }]
  else if message.hpf.frequency > 0 then
    [{ kind := BiquadFilterType.highpass,
       frequency := message.hpf.frequency, q := message.hpf.resonance }]
  else []

/-- The wiring step shared by both `set_filters` implementations
(lines 134-139 and 220-225): if the filter list is non-empty, connect
`source → filters.first` and `filters.last → envelope` (first = last =
index 0 here, since the chain pushes at most one filter); otherwise
connect `source → envelope` directly. -/
def wireFilters (source : AudioNodeRef) (filters : List BiquadFilter) :
    List Connection :=
  if ¬ filters.isEmpty then
    [(source, AudioNodeRef.filterNode 0),
     (AudioNodeRef.filterNode 0, AudioNodeRef.envelope)]
  else
    [(source, AudioNodeRef.envelope)]

/-- `Synth::set_filters` (superdough.rs lines 112-142): returns the built
filter list together with the `connect` edges it makes; the source is the
synth's oscillator. -/
def Synth.set_filters (message : WebAudioMessage) :
    List BiquadFilter × List Connection :=
  let filters := buildFilters message
  (filters, wireFilters AudioNodeRef.oscillator filters)

/-- `Sampler::set_filters` (superdough.rs lines 198-227): same selection
and wiring, with the buffer source as the source node. -/
def Sampler.set_filters (message : WebAudioMessage) :
    List BiquadFilter × List Connection :=
  let filters := buildFilters message
  (filters, wireFilters AudioNodeRef.sample filters)

/-- `OscillatorType` from the `web_audio_api` crate. -/
inductive OscillatorType where
  | sine
  | square
  | sawtooth
  | triangle
  | custom
deriving DecidableEq, Repr

/-- The mutable state of a `Synth` voice that `set_waveform` can touch:
the oscillator's waveform and frequency and the envelope's gain
breakpoints. -/
structure SynthState where
  waveform : OscillatorType
  frequency : ℚ
  envelopeBreakpoints : List Breakpoint
deriving DecidableEq, Repr

/-- `Synth::set_waveform` (superdough.rs lines 81-89): `"sine"`,
`"square"`, `"triangle"`, `"saw"`/`"sawtooth"` set the oscillator type;
any other string hits the `_ => {}` arm and changes nothing. -/
def Synth.set_waveform (waveform : String) (s : SynthState) : SynthState :=
  match waveform with
  | "sine" => { s with waveform := OscillatorType.sine }
  | "square" => { s with waveform := OscillatorType.square }
  | "triangle" => { s with waveform := OscillatorType.triangle }
  | "saw" => { s with waveform := OscillatorType.sawtooth }
  | "sawtooth" => { s with waveform := OscillatorType.sawtooth }
  | _ => s

/-- The loop configuration of an `AudioBufferSourceNode` that
`Sampler::play` can mutate (`set_loop`, `set_loop_start`,
`set_loop_end`). A fresh node has looping off. -/
structure BufferSourceState where
  loop : Bool
  loop_start : ℚ
  loop_end : ℚ
  bufferDuration : ℚ
deriving DecidableEq, Repr

/-- The scheduling produced by one `Sampler::play` call:
`start_at_with_offset(startTime, offset)` and `stop_at(stopTime)`. -/
structure PlaySchedule where
  startTime : ℚ
  offset : ℚ
  stopTime : ℚ
deriving DecidableEq, Repr

/-- `Sampler::play(t, message, release)` (superdough.rs lines 173-196).
The third parameter is named `release` in the trait but is immediately
rebound as `buffer_duration` and used as such.  Loop branch: enable
looping with the message's `loop_start`/`loop_end`, start at `t` from
`loop_start`, stop at `t + duration + adsr.release(default 0.01)`.
Otherwise: reverse (`speed < 0`) starts at offset `buffer_duration` and
stops at `t + duration + 0.2`; forward starts at
`begin * buffer_duration` and stops at
`t + duration + adsr.release(default 0.01)`. -/
def Sampler.play (t : ℚ) (message : WebAudioMessage) (release : ℚ)
    (s : BufferSourceState) : BufferSourceState × PlaySchedule :=
  let buffer_duration := release
  let start_stop : ℚ × ℚ :=
    if message.speed < 0 then
      (buffer_duration, t + message.duration + 0.2)
    else
      (message.begin * buffer_duration,
       t + message.duration + message.adsr.release.getD 0.01)
  if message.looper.is_loop > 0 then
    let s' : BufferSourceState :=
      { s with
        loop := true
        loop_start := message.looper.loop_start
        loop_end := message.looper.loop_end }
    (s', { startTime := t
           offset := s'.loop_start
           stopTime := t + message.duration + message.adsr.release.getD 0.01 })
  else
    (s, { startTime := t
          offset := start_stop.1
          stopTime := start_stop.2 })

/-- The envelope-selection match in `apply_filter_adsr`
(superdough.rs lines 231-236): lowpass→`lpenv`, highpass→`hpenv`,
bandpass→`bpenv`, anything else→`lpenv`. -/
def filterEnvOf (message : WebAudioMessage) (filter : BiquadFilterType) :
    FilterADSR :=
  match filter with
  | BiquadFilterType.lowpass => message.lpenv
  | BiquadFilterType.highpass => message.hpenv
  | BiquadFilterType.bandpass => message.bpenv
  | _ => message.lpenv

/-- The base-frequency match in `apply_filter_adsr`
(superdough.rs lines 238-243): lowpass→`lpf.frequency`,
highpass→`hpf.frequency`, bandpass→`bpf.frequency`, anything
else→`8000.0`. -/
def filterFreqOf (message : WebAudioMessage) (filter : BiquadFilterType) :
    ℚ :=
  match filter with
  | BiquadFilterType.lowpass => message.lpf.frequency
  | BiquadFilterType.highpass => message.hpf.frequency
  | BiquadFilterType.bandpass => message.bpf.frequency
  | _ => 8000

/-- Rust's `f32::clamp(lo, hi)`: clamp from below first, then from
above. -/
noncomputable def rclamp (x lo hi : ℝ) : ℝ := min (max x lo) hi

/-- `let offset = env.env.unwrap_or(1.0) * 0.5;`
(superdough.rs line 245). -/
noncomputable def filterEnvOffset (message : WebAudioMessage)
    (filter : BiquadFilterType) : ℝ :=
  (((filterEnvOf message filter).env.getD 1 : ℚ) : ℝ) * 0.5

/-- `let min = (2f32.powf(-offset) * freq).clamp(0.0, 20000.0);`
(superdough.rs line 246), over ℝ. -/
noncomputable def filterEnvMin (message : WebAudioMessage)
    (filter : BiquadFilterType) : ℝ :=
  rclamp ((2:ℝ) ^ (-(filterEnvOffset message filter)) *
    ((filterFreqOf message filter : ℚ) : ℝ)) 0 20000

/-- `let max = (2f32.powf(env.env.unwrap_or(1.0) - offset) * freq)
.clamp(0.0, 20000.0);` (superdough.rs line 247), over ℝ. -/
noncomputable def filterEnvMax (message : WebAudioMessage)
    (filter : BiquadFilterType) : ℝ :=
  rclamp ((2:ℝ) ^ ((((filterEnvOf message filter).env.getD 1 : ℚ) : ℝ) -
      filterEnvOffset message filter) *
    ((filterFreqOf message filter : ℚ) : ℝ)) 0 20000

/-- `let range = max - min;` (superdough.rs line 248). -/
noncomputable def filterEnvRange (message : WebAudioMessage)
    (filter : BiquadFilterType) : ℝ :=
  filterEnvMax message filter - filterEnvMin message filter

/-- `let peak = min + range;` (superdough.rs line 249). -/
noncomputable def filterEnvPeak (message : WebAudioMessage)
    (filter : BiquadFilterType) : ℝ :=
  filterEnvMin message filter + filterEnvRange message filter

/-- `let sustain_level = min + env.sustain.unwrap_or(1.0) * range;`
(superdough.rs line 250). -/
noncomputable def filterEnvSustainLevel (message : WebAudioMessage)
    (filter : BiquadFilterType) : ℝ :=
  filterEnvMin message filter +
    (((filterEnvOf message filter).sustain.getD 1 : ℚ) : ℝ) *
      filterEnvRange message filter

/-- The frequency-automation schedule of `apply_filter_adsr`
(superdough.rs lines 252-256): set `min` at `now`, linear ramp to `peak`
at `now + attack(default 0.01)`, linear ramp to `sustain_level` at
`now + attack + decay(default 0.01)`, linear ramp back to `min` at
`now + duration + release(default 0.01)`. -/
noncomputable def apply_filter_adsr (message : WebAudioMessage)
    (filter : BiquadFilterType) (now : ℝ) : List (ℝ × ℝ × Curve) :=
  let env := filterEnvOf message filter
  [(now, filterEnvMin message filter, Curve.set),
   (now + ((env.attack.getD 0.01 : ℚ) : ℝ),
    filterEnvPeak message filter, Curve.linear),
   (now + ((env.attack.getD 0.01 : ℚ) : ℝ) + ((env.decay.getD 0.01 : ℚ) : ℝ),
    filterEnvSustainLevel message filter, Curve.linear),
   (now + (message.duration : ℝ) + ((env.release.getD 0.01 : ℚ) : ℝ),
    filterEnvMin message filter, Curve.linear)]

/-- A concrete synth state used by the C9 witness. -/
def synthState0 : SynthState := ⟨OscillatorType.sine, 440, []⟩

/-- An `f64` as seen by message validation: a finite value (modelled as a
rational) or one of the non-finite IEEE values. -/
inductive F64 where
  | finite (val : ℚ)
  | nan
  | posInf
  | negInf
deriving DecidableEq, Repr

/-- Whether an `F64` is a finite number. -/
def F64.isFinite : F64 → Bool
  | F64.finite _ => true
  | _ => false

/-- The raw numeric fields of an incoming note message that validation
inspects: `duration`, `begin` and `speed` as received. -/
structure RawNoteFields where
  duration : F64
  begin : F64
  speed : F64
deriving DecidableEq, Repr

/-- The kinds of audio nodes voice construction can create. -/
inductive NodeKind where
  | oscillator
  | gain
  | biquadFilter
  | bufferSource
deriving DecidableEq, Repr

/-- Error kinds of the message pipeline. -/
inductive PipelineError where
  | invalidMessage
deriving DecidableEq, Repr

/-- Modelled from the spec: the message decoding/validation pipeline lives
in webaudiobridge.rs, which is not among the analysed sources — only its
consumer superdough.rs is.  Spec §6 gives the numeric constraints
(`duration > 0`, `begin ∈ [0,1]`, finite `speed`); a message violating
them (non-finite or out-of-range `duration`, `begin` or `speed`) is
invalid. -/
def validMessage (raw : RawNoteFields) : Bool :=
  match raw.duration, raw.begin, raw.speed with
  | F64.finite d, F64.finite b, F64.finite _ =>
    decide (0 < d) && decide (0 ≤ b) && decide (b ≤ 1)
  | _, _, _ => false

/-- Modelled from the spec: processing a note message validates it first
and only then creates and wires the voice's nodes (spec §5: "Validation
must fail before any node is wired (fail-fast)"; §7: `InvalidMessage` is
"rejected before any node is created").  The successful branch reuses the
embedded `set_filters` wiring; the error branch carries no created node
and no connection. -/
def processMessage (raw : RawNoteFields) (message : WebAudioMessage) :
    Except PipelineError (List NodeKind × List Connection) :=
  if validMessage raw then
    Except.ok
      (NodeKind.oscillator :: NodeKind.gain ::
        (buildFilters message).map (fun _ => NodeKind.biquadFilter),
       (Synth.set_filters message).2)
  else
    Except.error PipelineError.invalidMessage

/-- Lowpass at 1000 Hz with an all-default lowpass envelope
(depth defaults to 1.0): the spec's symmetry example. -/
def msgLp1000 : WebAudioMessage :=
  { testMessage with lpf := ⟨1000, 1⟩ }

/-- Lowpass at 15000 Hz with envelope depth 2.0: the spec's clamping
example. -/
def msgLp15000 : WebAudioMessage :=
  { testMessage with
      lpf := ⟨15000, 1⟩
      lpenv := { FilterADSR.allNone with env := some 2 } }

end Superdough

namespace Superdough

/-- C1: With all ADSR fields absent, the tone-generator's `set_adsr`
schedules exactly the four breakpoints `(t, 0, set)`,
`(t+0.001, v, linear)`, `(t+0.051, 0.6001*v, exponential)`,
`(t+d+0.01, 0.000001, exponential)`, in this issue order, for every
start time `t`, velocity `v` and duration `d > 0` (in particular also
when `d < attack + decay = 0.051`). -/
theorem synth_set_adsr_default_breakpoints (t v d : ℚ) (hd : 0 < d) :
    Synth.set_adsr t ADSR.allNone v d =
      [(t, 0, Curve.set),
       (t + 0.001, v, Curve.linear),
       (t + 0.051, 0.6001 * v, Curve.exponential),
       (t + d + 0.01, 0.000001, Curve.exponential)] := by
  simp only [Synth.set_adsr, ADSR.allNone, Option.getD_none]
  norm_num
  ring

/-- Witness for C1 at `t = 0`, `v = 1`, `d = 1/100 < 0.051`. -/
theorem synth_set_adsr_default_breakpoints_witness :
    Synth.set_adsr 0 ADSR.allNone 1 (1/100) =
      [(0, 0, Curve.set),
       ((0:ℚ) + 0.001, 1, Curve.linear),
       ((0:ℚ) + 0.051, 0.6001 * 1, Curve.exponential),
       ((0:ℚ) + 1/100 + 0.01, 0.000001, Curve.exponential)] :=
  synth_set_adsr_default_breakpoints 0 1 (1/100) (by norm_num)

/-- C2: With all ADSR fields absent, the sample-player's `set_adsr`
schedules exactly the five breakpoints `(t, 0, set)`,
`(t+0.001, v, linear)`, `(t+0.002, 1.00001*v, linear)`,
`(t+d, 1.00001*v, set)`, `(t+d+0.01, 0, linear)` for every start time
`t`, velocity `v` and duration `d > 0`. -/
theorem sampler_set_adsr_default_breakpoints (t v d : ℚ) (hd : 0 < d) :
    Sampler.set_adsr t ADSR.allNone v d =
      [(t, 0, Curve.set),
       (t + 0.001, v, Curve.linear),
       (t + 0.002, 1.00001 * v, Curve.linear),
       (t + d, 1.00001 * v, Curve.set),
       (t + d + 0.01, 0, Curve.linear)] := by
  simp only [Sampler.set_adsr, ADSR.allNone, Option.getD_none]
  norm_num
  ring

/-- C3: both voice kinds build at most one filter, chosen by priority
bandpass > lowpass > highpass among kinds with positive frequency; the
chosen filter carries that kind's frequency and resonance; a non-empty
selection is wired `source → filter → envelope`, and an empty selection
wires `source → envelope` directly. -/
theorem set_filters_one_filter_by_priority (message : WebAudioMessage) :
    ((Synth.set_filters message).1.length ≤ 1 ∧
     (Sampler.set_filters message).1 = (Synth.set_filters message).1) ∧
    (0 < message.bpf.frequency →
      (Synth.set_filters message).1 =
        [⟨BiquadFilterType.bandpass, message.bpf.frequency,
          message.bpf.resonance⟩]) ∧
    (¬ 0 < message.bpf.frequency → 0 < message.lpf.frequency →
      (Synth.set_filters message).1 =
        [⟨BiquadFilterType.lowpass, message.lpf.frequency,
          message.lpf.resonance⟩]) ∧
    (¬ 0 < message.bpf.frequency → ¬ 0 < message.lpf.frequency →
        0 < message.hpf.frequency →
      (Synth.set_filters message).1 =
        [⟨BiquadFilterType.highpass, message.hpf.frequency,
          message.hpf.resonance⟩]) ∧
    (¬ 0 < message.bpf.frequency → ¬ 0 < message.lpf.frequency →
        ¬ 0 < message.hpf.frequency →
      (Synth.set_filters message).1 = [] ∧
      (Synth.set_filters message).2 =
        [(AudioNodeRef.oscillator, AudioNodeRef.envelope)] ∧
      (Sampler.set_filters message).2 =
        [(AudioNodeRef.sample, AudioNodeRef.envelope)]) ∧
    ((Synth.set_filters message).1 ≠ [] →
      (Synth.set_filters message).2 =
        [(AudioNodeRef.oscillator, AudioNodeRef.filterNode 0),
         (AudioNodeRef.filterNode 0, AudioNodeRef.envelope)] ∧
      (Sampler.set_filters message).2 =
        [(AudioNodeRef.sample, AudioNodeRef.filterNode 0),
         (AudioNodeRef.filterNode 0, AudioNodeRef.envelope)]) := by
  unfold Synth.set_filters Sampler.set_filters buildFilters wireFilters
  split_ifs with h1 h2 h3 <;> simp_all

/-- Witness for C3: on the spec's example message (`bpf.frequency = 200`,
`lpf.frequency = 1000`) only a bandpass filter is built, and on the
baseline message (all filter frequencies zero) no filter is built and the
oscillator is connected directly to the envelope. -/
theorem set_filters_one_filter_by_priority_witness :
    (Synth.set_filters msgBpLp).1 =
      [⟨BiquadFilterType.bandpass, 200, 1⟩] ∧
    (Synth.set_filters testMessage).1 = [] ∧
    (Synth.set_filters testMessage).2 =
      [(AudioNodeRef.oscillator, AudioNodeRef.envelope)] :=
  ⟨by
    have h := (set_filters_one_filter_by_priority msgBpLp).2.1
      (by norm_num [msgBpLp, testMessage])
    simpa [msgBpLp, testMessage] using h,
   by
    have h := (set_filters_one_filter_by_priority testMessage).2.2.2.2.1
      (by norm_num [testMessage]) (by norm_num [testMessage])
      (by norm_num [testMessage])
    exact ⟨h.1, h.2.1⟩⟩

/-- C5: whenever `looper.is_loop > 0`, `Sampler::play` takes only the
loop branch, for every speed (negative included): looping is enabled with
the message's `loop_start`/`loop_end`, playback starts at `t` with offset
`loop_start`, and stop is scheduled at
`t + duration + adsr.release(default 0.01)`; the result does not depend
on the reverse-offset computation at all. -/
theorem sampler_play_loop_branch (t r : ℚ) (message : WebAudioMessage)
    (s : BufferSourceState) (h : message.looper.is_loop > 0) :
    Sampler.play t message r s =
      ({ s with
          loop := true
          loop_start := message.looper.loop_start
          loop_end := message.looper.loop_end },
       { startTime := t
         offset := message.looper.loop_start
         stopTime :=
           t + message.duration + message.adsr.release.getD 0.01 }) := by
  unfold Sampler.play
  simp [h]

/-- Witness for C5: `is_loop = 1` together with `speed = -1` (the spec's
loop-precedence example). -/
theorem sampler_play_loop_branch_witness :
    Sampler.play 0
      { testMessage with speed := -1, looper := ⟨1, 2, 3⟩ } 5
      ⟨false, 0, 0, 5⟩ =
      (⟨true, 2, 3, 5⟩, { startTime := 0, offset := 2, stopTime := 0 + 1 + 0.01 }) := by
  have h := sampler_play_loop_branch 0 5
    { testMessage with speed := -1, looper := ⟨1, 2, 3⟩ }
    ⟨false, 0, 0, 5⟩ (by norm_num [testMessage])
  simpa [testMessage, ADSR.allNone] using h

/-- C6: with loop off, reverse playback (`speed < 0`) starts at offset
equal to the buffer duration (the rebound `release` parameter) and stops
at `t + duration + 0.2`, a fixed tail mentioning neither the `release`
parameter nor `adsr.release`; forward playback (`speed ≥ 0`) starts at
`begin * bufferDuration` and stops at
`t + duration + adsr.release(default 0.01)`. -/
theorem sampler_play_no_loop_branches (t r : ℚ) (message : WebAudioMessage)
    (s : BufferSourceState) (h : message.looper.is_loop = 0) :
    (message.speed < 0 →
      Sampler.play t message r s =
        (s, { startTime := t
              offset := r
              stopTime := t + message.duration + 0.2 })) ∧
    (0 ≤ message.speed →
      Sampler.play t message r s =
        (s, { startTime := t
              offset := message.begin * r
              stopTime :=
                t + message.duration +
                  message.adsr.release.getD 0.01 })) := by
  constructor
  · intro hs
    unfold Sampler.play
    simp [h, hs]
  · intro hs
    unfold Sampler.play
    simp [h, not_lt.mpr hs]

/-- Witness for C6: one reverse call (`speed = -1`) and one forward call
(`speed = 1`), both with loop off. -/
theorem sampler_play_no_loop_branches_witness :
    Sampler.play 0 { testMessage with speed := -1, begin := 1/2 } 4
        ⟨false, 0, 0, 4⟩ =
      (⟨false, 0, 0, 4⟩, { startTime := 0, offset := 4, stopTime := 0 + 1 + 0.2 }) ∧
    Sampler.play 0 { testMessage with begin := 1/2 } 4
        ⟨false, 0, 0, 4⟩ =
      (⟨false, 0, 0, 4⟩,
       { startTime := 0, offset := 1/2 * 4, stopTime := 0 + 1 + 0.01 }) := by
  constructor
  · have h := (sampler_play_no_loop_branches 0 4
      { testMessage with speed := -1, begin := 1/2 }
      ⟨false, 0, 0, 4⟩ (by norm_num [testMessage])).1 (by norm_num [testMessage])
    simpa [testMessage, ADSR.allNone] using h
  · have h := (sampler_play_no_loop_branches 0 4
      { testMessage with begin := 1/2 }
      ⟨false, 0, 0, 4⟩ (by norm_num [testMessage])).2 (by norm_num [testMessage])
    simpa [testMessage, ADSR.allNone] using h

/-- C10: with loop off, the start offset handed to the buffer source is
computed from the third argument `x` itself (the parameter the trait
names `release`), not from the owned buffer source's state — in
particular not from its buffer duration: the whole schedule is the same
for any two buffer-source states, the offset is `x` when `speed < 0` and
`begin * x` when `speed ≥ 0`, and the forward stop time re-reads
`adsr.release` and does not mention `x`. -/
theorem sampler_play_offset_from_argument (t x : ℚ)
    (message : WebAudioMessage) (s w : BufferSourceState)
    (h : message.looper.is_loop = 0) :
    (Sampler.play t message x s).2 = (Sampler.play t message x w).2 ∧
    (Sampler.play t message x s).2.offset =
      (if message.speed < 0 then x else message.begin * x) ∧
    (0 ≤ message.speed →
      (Sampler.play t message x s).2.stopTime =
        t + message.duration + message.adsr.release.getD 0.01) := by
  unfold Sampler.play
  refine ⟨by simp [h], ?_, ?_⟩
  · rcases lt_or_ge message.speed 0 with hs | hs
    · simp [h, hs]
    · simp [h, not_lt.mpr hs]
  · intro hs
    simp [h, not_lt.mpr hs]

/-- Witness for C10: reverse playback with `x = 7` while the owned buffer
source records a buffer duration of `3 ≠ 7`; the offset is `7`. -/
theorem sampler_play_offset_from_argument_witness :
    (Sampler.play 0 { testMessage with speed := -1 } 7
        ⟨false, 0, 0, 3⟩).2.offset =
      (if ({ testMessage with speed := -1 } : WebAudioMessage).speed < 0
        then (7:ℚ) else ({ testMessage with speed := -1 } :
          WebAudioMessage).begin * 7) :=
  (sampler_play_offset_from_argument 0 7 { testMessage with speed := -1 }
    ⟨false, 0, 0, 3⟩ ⟨false, 0, 0, 99⟩ (by norm_num [testMessage])).2.1

/-- C8: `apply_filter_adsr` selects the envelope and base frequency as
bandpass→(`bpenv`, `bpf.frequency`), lowpass→(`lpenv`, `lpf.frequency`),
highpass→(`hpenv`, `hpf.frequency`); every other filter kind uses the
lowpass envelope `lpenv` with a fixed 8000 Hz base. -/
theorem apply_filter_adsr_selection (message : WebAudioMessage) :
    (filterEnvOf message BiquadFilterType.bandpass = message.bpenv ∧
     filterFreqOf message BiquadFilterType.bandpass =
       message.bpf.frequency) ∧
    (filterEnvOf message BiquadFilterType.lowpass = message.lpenv ∧
     filterFreqOf message BiquadFilterType.lowpass =
       message.lpf.frequency) ∧
    (filterEnvOf message BiquadFilterType.highpass = message.hpenv ∧
     filterFreqOf message BiquadFilterType.highpass =
       message.hpf.frequency) ∧
    (∀ filter : BiquadFilterType,
      filter ≠ BiquadFilterType.bandpass →
      filter ≠ BiquadFilterType.lowpass →
      filter ≠ BiquadFilterType.highpass →
      filterEnvOf message filter = message.lpenv ∧
      filterFreqOf message filter = 8000) := by
  refine ⟨⟨rfl, rfl⟩, ⟨rfl, rfl⟩, ⟨rfl, rfl⟩, ?_⟩
  intro filter h1 h2 h3
  cases filter <;> simp_all [filterEnvOf, filterFreqOf]

/-- Witness for C8: the notch kind falls back to `lpenv` and 8000 Hz. -/
theorem apply_filter_adsr_selection_witness :
    filterEnvOf testMessage BiquadFilterType.notch = testMessage.lpenv ∧
    filterFreqOf testMessage BiquadFilterType.notch = 8000 :=
  (apply_filter_adsr_selection testMessage).2.2.2
    BiquadFilterType.notch (by decide) (by decide) (by decide)

/-- C9: `set_waveform` maps `"sine"`, `"square"`, `"triangle"`, `"saw"`
and `"sawtooth"` to the corresponding oscillator types, and leaves the
whole synth state unchanged (waveform included) for any other name,
without an error. -/
theorem set_waveform_selection (s : SynthState) (w : String) :
    Synth.set_waveform "sine" s = { s with waveform := OscillatorType.sine } ∧
    Synth.set_waveform "square" s =
      { s with waveform := OscillatorType.square } ∧
    Synth.set_waveform "triangle" s =
      { s with waveform := OscillatorType.triangle } ∧
    Synth.set_waveform "saw" s =
      { s with waveform := OscillatorType.sawtooth } ∧
    Synth.set_waveform "sawtooth" s =
      { s with waveform := OscillatorType.sawtooth } ∧
    (w ∉ ["sine", "square", "triangle", "saw", "sawtooth"] →
      Synth.set_waveform w s = s) := by
  refine ⟨rfl, rfl, rfl, rfl, rfl, ?_⟩
  intro hw
  unfold Synth.set_waveform
  split <;> simp_all

/-- Witness for C9: the unrecognized name `"noise"` leaves the state
unchanged. -/
theorem set_waveform_selection_witness :
    Synth.set_waveform "noise" synthState0 = synthState0 :=
  (set_waveform_selection synthState0 "noise").2.2.2.2.2 (by decide)

/-- C7: a message whose `duration`, `begin` or `speed` is non-finite or
out of range (duration not positive, begin outside `[0,1]`, speed not a
number) is rejected as `InvalidMessage`: the pipeline result is the bare
error, which carries no created audio node and no wired connection, so no
partially-wired voice can be left connected. -/
theorem message_validation_fail_fast (raw : RawNoteFields)
    (message : WebAudioMessage)
    (h : (∀ d : ℚ, raw.duration = F64.finite d → ¬ 0 < d) ∨
         (∀ b : ℚ, raw.begin = F64.finite b → ¬ (0 ≤ b ∧ b ≤ 1)) ∨
         (∀ x : ℚ, raw.speed = F64.finite x → False)) :
    processMessage raw message = Except.error PipelineError.invalidMessage ∧
    ∀ nodes : List NodeKind, ∀ conns : List Connection,
      processMessage raw message ≠ Except.ok (nodes, conns) := by
  suffices hv : validMessage raw = false by
    refine ⟨by simp [processMessage, hv], ?_⟩
    intro nodes conns
    simp [processMessage, hv]
  unfold validMessage
  rcases raw with ⟨d, b, s⟩
  rcases h with h | h | h <;> rcases d with d | _ | _ | _ <;>
    rcases b with b | _ | _ | _ <;> rcases s with s | _ | _ | _ <;>
    simp_all

/-- Witness for C7: `duration = -1` (finite but not positive) is rejected
as `InvalidMessage`. -/
theorem message_validation_fail_fast_witness :
    processMessage ⟨F64.finite (-1), F64.finite 0, F64.finite 1⟩
        testMessage =
      Except.error PipelineError.invalidMessage :=
  (message_validation_fail_fast
    ⟨F64.finite (-1), F64.finite 0, F64.finite 1⟩ testMessage
    (Or.inl (by intro d hd; cases hd; decide))).1

/-- Rational bounds on `Real.sqrt 2`, used for the filter-envelope
frequency example. -/
theorem sqrt_two_bounds :
    1.41421 < Real.sqrt 2 ∧ Real.sqrt 2 < 1.41422 := by
  have h := Real.sq_sqrt (show (0:ℝ) ≤ 2 by norm_num)
  have hnn := Real.sqrt_nonneg 2
  constructor <;> nlinarith

/-- C4: for every message and filter kind, the envelope's `min` and `max`
equal the spec formulas `clamp(base * 2^(-env/2), 0, 20000)` and
`clamp(base * 2^(env - env/2), 0, 20000)` (depth defaulting to 1.0), and
`peak = max`.  On a 1000 Hz lowpass with default depth 1.0, `min` is the
unclamped `1000/sqrt 2 ≈ 707.1` and `max` the unclamped
`1000*sqrt 2 ≈ 1414.2`; on a 15000 Hz lowpass with depth 2.0, `max`
clamps to exactly 20000. -/
theorem filter_env_min_max_peak_spec :
    (∀ (message : WebAudioMessage) (filter : BiquadFilterType),
      filterEnvMin message filter =
        rclamp (((filterFreqOf message filter : ℚ) : ℝ) *
          (2:ℝ) ^ (-((((filterEnvOf message filter).env.getD 1 : ℚ) : ℝ) / 2)))
          0 20000 ∧
      filterEnvMax message filter =
        rclamp (((filterFreqOf message filter : ℚ) : ℝ) *
          (2:ℝ) ^ ((((filterEnvOf message filter).env.getD 1 : ℚ) : ℝ) -
            (((filterEnvOf message filter).env.getD 1 : ℚ) : ℝ) / 2))
          0 20000 ∧
      filterEnvPeak message filter = filterEnvMax message filter) ∧
    (filterEnvMin msgLp1000 BiquadFilterType.lowpass =
        (Real.sqrt 2)⁻¹ * 1000 ∧
     707.1 < filterEnvMin msgLp1000 BiquadFilterType.lowpass ∧
     filterEnvMin msgLp1000 BiquadFilterType.lowpass < 707.11 ∧
     filterEnvMax msgLp1000 BiquadFilterType.lowpass = Real.sqrt 2 * 1000 ∧
     1414.2 < filterEnvMax msgLp1000 BiquadFilterType.lowpass ∧
     filterEnvMax msgLp1000 BiquadFilterType.lowpass < 1414.23) ∧
    filterEnvMax msgLp15000 BiquadFilterType.lowpass = 20000 := by
  obtain ⟨hs1, hs2⟩ := sqrt_two_bounds
  have hspos : (0:ℝ) < Real.sqrt 2 := by linarith
  have hprod : (Real.sqrt 2)⁻¹ * Real.sqrt 2 = 1 :=
    inv_mul_cancel₀ (ne_of_gt hspos)
  have hinvpos : (0:ℝ) < (Real.sqrt 2)⁻¹ := by positivity
  refine ⟨?_, ?_, ?_⟩
  · intro message filter
    refine ⟨?_, ?_, ?_⟩
    · rw [filterEnvMin, filterEnvOffset, mul_comm,
        show -((((filterEnvOf message filter).env.getD 1 : ℚ) : ℝ) * 0.5) =
          -((((filterEnvOf message filter).env.getD 1 : ℚ) : ℝ) / 2) by ring]
    · rw [filterEnvMax, filterEnvOffset, mul_comm,
        show (((filterEnvOf message filter).env.getD 1 : ℚ) : ℝ) -
            (((filterEnvOf message filter).env.getD 1 : ℚ) : ℝ) * 0.5 =
          (((filterEnvOf message filter).env.getD 1 : ℚ) : ℝ) -
            (((filterEnvOf message filter).env.getD 1 : ℚ) : ℝ) / 2 by ring]
    · rw [filterEnvPeak, filterEnvRange]
      ring
  · have hd : ((filterEnvOf msgLp1000 BiquadFilterType.lowpass).env.getD 1 :
        ℚ) = 1 := rfl
    have hfreq : filterFreqOf msgLp1000 BiquadFilterType.lowpass =
        (1000:ℚ) := rfl
    have hofs : filterEnvOffset msgLp1000 BiquadFilterType.lowpass = 1/2 := by
      rw [filterEnvOffset, hd]
      norm_num
    have hpmin : (2:ℝ) ^
        (-(filterEnvOffset msgLp1000 BiquadFilterType.lowpass)) =
        (Real.sqrt 2)⁻¹ := by
      rw [hofs, Real.rpow_neg (by norm_num : (0:ℝ) ≤ 2),
        ← Real.sqrt_eq_rpow]
    have hpmax : (2:ℝ) ^
        ((((filterEnvOf msgLp1000 BiquadFilterType.lowpass).env.getD 1 :
            ℚ) : ℝ) - filterEnvOffset msgLp1000 BiquadFilterType.lowpass) =
        Real.sqrt 2 := by
      rw [hofs, hd, show (((1:ℚ):ℝ)) - 1/2 = 1/(2:ℝ) by norm_num,
        ← Real.sqrt_eq_rpow]
    have hmin_eq : filterEnvMin msgLp1000 BiquadFilterType.lowpass =
        (Real.sqrt 2)⁻¹ * 1000 := by
      rw [filterEnvMin, hpmin, hfreq, show (((1000:ℚ)):ℝ) = 1000 by norm_num,
        rclamp, max_eq_left (by positivity : (0:ℝ) ≤ (Real.sqrt 2)⁻¹ * 1000),
        min_eq_left (by nlinarith : (Real.sqrt 2)⁻¹ * 1000 ≤ 20000)]
    have hmax_eq : filterEnvMax msgLp1000 BiquadFilterType.lowpass =
        Real.sqrt 2 * 1000 := by
      rw [filterEnvMax, hpmax, hfreq, show (((1000:ℚ)):ℝ) = 1000 by norm_num,
        rclamp, max_eq_left (by positivity : (0:ℝ) ≤ Real.sqrt 2 * 1000),
        min_eq_left (by nlinarith : Real.sqrt 2 * 1000 ≤ 20000)]
    refine ⟨hmin_eq, ?_, ?_, hmax_eq, ?_, ?_⟩
    · rw [hmin_eq]
      nlinarith
    · rw [hmin_eq]
      nlinarith
    · rw [hmax_eq]
      nlinarith
    · rw [hmax_eq]
      nlinarith
  · have hd2 : ((filterEnvOf msgLp15000 BiquadFilterType.lowpass).env.getD 1 :
        ℚ) = 2 := rfl
    have hofs2 : filterEnvOffset msgLp15000 BiquadFilterType.lowpass = 1 := by
      rw [filterEnvOffset, hd2]
      norm_num
    have hfreq2 : filterFreqOf msgLp15000 BiquadFilterType.lowpass =
        (15000:ℚ) := rfl
    rw [filterEnvMax, hofs2, hd2, hfreq2,
      show (((2:ℚ):ℝ)) - 1 = (1:ℝ) by norm_num, Real.rpow_one, rclamp]
    norm_num

/-- Witness for C2 at `t = 0`, `v = 1`, `d = 1`. -/
theorem sampler_set_adsr_default_breakpoints_witness :
    Sampler.set_adsr 0 ADSR.allNone 1 1 =
      [(0, 0, Curve.set),
       ((0:ℚ) + 0.001, 1, Curve.linear),
       ((0:ℚ) + 0.002, 1.00001 * 1, Curve.linear),
       ((0:ℚ) + 1, 1.00001 * 1, Curve.set),
       ((0:ℚ) + 1 + 0.01, 0, Curve.linear)] :=
  sampler_set_adsr_default_breakpoints 0 1 1 (by norm_num)

end Superdough
